import Mathlib

/-!
Verification of the Epic Events CRM authorization and entity-lifecycle
engine, shallowly embedded from the Python sources:

* `app/authentication.py` (PERMISSIONS table, `check_permission`,
  `get_employee_from_token`),
* `app/controllers/client_controller.py` (`list_clients`),
* `app/controllers/contract_controller.py` (`create_contract`,
  `update_contract`),
* `app/controllers/event_controller.py` (`create_event`, `update_event`).

Database access is modelled by passing the relevant table as a list and the
target row as a value; SQLAlchemy `commit`/`rollback` atomicity is modelled
by the operations being pure functions that either return the updated row
(`Except.ok`) or fail without producing one (`Except.error`).  `Decimal`
amounts are embedded as rationals, timestamps as integers ordered the same
way, and raised exceptions / `return None` paths as `Except.error` values.
-/

namespace EpicEvents

/-- Employee departments (roles). `initialize_roles` in `app/models.py`
creates exactly the roles Gestion, Commercial and Support. -/
inductive Dept
  | Gestion
  | Commercial
  | Support
deriving DecidableEq, Repr

/-- Action identifiers: the keys of the `PERMISSIONS` dictionary in
`app/authentication.py`. -/
inductive Action
  | create_employee
  | view_employees
  | update_employee
  | delete_employee
  | create_client
  | view_clients
  | update_client
  | create_contract
  | view_contracts
  | update_contract
  | create_event
  | view_events
  | update_event
deriving DecidableEq, Repr

/-- The `PERMISSIONS` table of `app/authentication.py`, row by row. -/
def PERMISSIONS (department : Dept) (action : Action) : Bool :=
  match department, action with
  | .Gestion, .create_employee => true
  | .Gestion, .view_employees => true
  | .Gestion, .update_employee => true
  | .Gestion, .delete_employee => true
  | .Gestion, .create_client => true
  | .Gestion, .view_clients => true
  | .Gestion, .update_client => true
  | .Gestion, .create_contract => true
  | .Gestion, .view_contracts => true
  | .Gestion, .update_contract => true
  | .Gestion, .create_event => true
  | .Gestion, .view_events => true
  | .Gestion, .update_event => true
  | .Commercial, .create_employee => false
  | .Commercial, .view_employees => true
  | .Commercial, .update_employee => false
  | .Commercial, .delete_employee => false
  | .Commercial, .create_client => true
  | .Commercial, .view_clients => true
  | .Commercial, .update_client => true
  | .Commercial, .create_contract => true
  | .Commercial, .view_contracts => true
  | .Commercial, .update_contract => true
  | .Commercial, .create_event => false
  | .Commercial, .view_events => true
  | .Commercial, .update_event => false
  | .Support, .create_employee => false
  | .Support, .view_employees => true
  | .Support, .update_employee => false
  | .Support, .delete_employee => false
  | .Support, .create_client => false
  | .Support, .view_clients => true
  | .Support, .update_client => false
  | .Support, .create_contract => false
  | .Support, .view_contracts => true
  | .Support, .update_contract => false
  | .Support, .create_event => false
  | .Support, .view_events => true
  | .Support, .update_event => true

/-- An `Employee` row: only the fields the authorization engine reads
(`id` and the `department` property, which resolves to the role name). -/
structure Employee where
  id : Nat
  department : Dept
deriving DecidableEq, Repr

/-- `check_permission` from `app/authentication.py`. -/
def check_permission (employee : Employee) (action : Action) : Bool :=
  PERMISSIONS employee.department action

/-- A `Client` row (`app/models.py`). -/
structure Client where
  id : Nat
  full_name : String
  email : String
  phone : String
  company_name : String
  sales_contact_id : Nat
deriving DecidableEq, Repr

/-- A `Contract` row (`app/models.py`); `Numeric(10, 2)` amounts are
embedded as rationals. -/
structure Contract where
  id : Nat
  client_id : Nat
  sales_contact_id : Nat
  total_amount : ℚ
  remaining_amount : ℚ
  status_signed : Bool
deriving DecidableEq, Repr

/-- An `Event` row (`app/models.py`); timestamps are embedded as integers
with the same ordering, `support_contact_id` is nullable. -/
structure Event where
  id : Nat
  contract_id : Nat
  name : String
  attendees : Int
  event_start : Int
  event_end : Int
  location : String
  notes : String
  support_contact_id : Option Nat
deriving DecidableEq, Repr

/-- Outcomes of the raised-exception / printed-error-and-return-None paths
of the controllers. -/
inductive Failure
  | PermissionDenied
  | NotFound
  | NotOwner
  | Unsigned
  | Invalid
deriving DecidableEq, Repr

/-- Whether a controller outcome is a success (the caller received an
entity) rather than a raised or printed error. -/
def succeeded {α : Type} : Except Failure α → Bool
  | .ok _ => true
  | .error _ => false

/-- `list_clients` from `app/controllers/client_controller.py`: after the
`view_clients` permission check, the requested `filter_by_sales_id` is
applied to the query — the Commercial branch and the Gestion/Support branch
of the source apply the same filter. -/
def list_clients (db : List Client) (current_user : Employee)
    (filter_by_sales_id : Option Nat) : Except Failure (List Client) :=
  if ¬ check_permission current_user .view_clients then
    .error .PermissionDenied
  else if current_user.department = .Commercial then
    match filter_by_sales_id with
    | some fid => .ok (db.filter (fun c => c.sales_contact_id == fid))
    | none => .ok db
  else if current_user.department = .Gestion ∨ current_user.department = .Support then
    match filter_by_sales_id with
    | some fid => .ok (db.filter (fun c => c.sales_contact_id == fid))
    | none => .ok db
  else .ok db

/-- The claims carried by a decoded access token, as written by
`create_access_token` in `app/authentication.py`: subject id, email, and the
department (role) claim embedded at issue time. -/
structure TokenPayload where
  sub : Nat
  email : String
  department : Dept
deriving DecidableEq, Repr

/-- `get_employee_from_token` from `app/authentication.py`, after decoding:
`decoded` is the outcome of `decode_access_token` (`none` when the signature
or expiry check raised, `some payload` when the token verified).  The
function looks up the employee by the subject id and returns the stored
record; the payload's department claim is not consulted. -/
def get_employee_from_token (decoded : Option TokenPayload)
    (employees : List Employee) : Option Employee :=
  match decoded with
  | none => none
  | some payload =>
    match employees.find? (fun e => e.id == payload.sub) with
    | none => none
    | some employee => some employee

/-- `create_contract` from `app/controllers/contract_controller.py`.
`new_id` models the database-assigned primary key.  Note the initial
`status_signed` is computed as `remaining_amount == total_amount`. -/
def create_contract (clients : List Client) (current_user : Employee)
    (client_id : Nat) (total_amount remaining_amount : ℚ)
    (new_id : Nat) : Except Failure Contract :=
  if ¬ check_permission current_user .create_contract then
    .error .PermissionDenied
  else if total_amount ≤ 0 ∨ remaining_amount < 0 ∨ remaining_amount > total_amount then
    .error .Invalid
  else
    match clients.find? (fun cl => cl.id == client_id) with
    | none => .error .NotFound
    | some client =>
      .ok { id := new_id
            client_id := client_id
            sales_contact_id := client.sales_contact_id
            total_amount := total_amount
            remaining_amount := remaining_amount
            status_signed := decide (remaining_amount = total_amount) }

/-- The change set a caller may pass to `update_contract` (its handled
`kwargs` keys). -/
structure ContractChanges where
  remaining_amount : Option ℚ
  total_amount : Option ℚ
  sales_contact_id : Option Nat
deriving DecidableEq, Repr

/-- The `remaining_amount` block of `update_contract`: any role that reached
this point may update it; on success `status_signed` is recomputed as
`new_remaining == 0`. -/
def apply_remaining_amount (contract : Contract) (v : Option ℚ) :
    Except Failure Contract :=
  match v with
  | none => .ok contract
  | some new_remaining =>
    if new_remaining < 0 ∨ new_remaining > contract.total_amount then
      .error .Invalid
    else
      .ok { contract with
            remaining_amount := new_remaining
            status_signed := decide (new_remaining = 0) }

/-- The `total_amount` block of `update_contract`: Gestion only, the new
total must be positive and at least the (possibly just updated) remaining
amount. -/
def apply_total_amount (current_user : Employee) (contract : Contract)
    (v : Option ℚ) : Except Failure Contract :=
  match v with
  | none => .ok contract
  | some new_total =>
    if current_user.department ≠ .Gestion then .error .PermissionDenied
    else if new_total ≤ 0 then .error .Invalid
    else if new_total < contract.remaining_amount then .error .Invalid
    else .ok { contract with total_amount := new_total }

/-- The `sales_contact_id` block of `update_contract`: Gestion only, and the
target employee must exist and be Commercial. -/
def apply_sales_contact (employees : List Employee) (current_user : Employee)
    (contract : Contract) (v : Option Nat) : Except Failure Contract :=
  match v with
  | none => .ok contract
  | some new_sales_id =>
    if current_user.department ≠ .Gestion then .error .PermissionDenied
    else
      match employees.find? (fun e => e.id == new_sales_id) with
      | none => .error .Invalid
      | some new_sales_contact =>
        if new_sales_contact.department ≠ .Commercial then .error .Invalid
        else .ok { contract with sales_contact_id := new_sales_contact.id }

/-- `update_contract` from `app/controllers/contract_controller.py`: the
permission and ownership gates, then the three `kwargs` blocks in source
order; any raised error aborts the whole update (`session.rollback`). -/
def update_contract (employees : List Employee) (current_user : Employee)
    (contract : Contract) (changes : ContractChanges) :
    Except Failure Contract :=
  if ¬ check_permission current_user .update_contract then
    .error .PermissionDenied
  else if current_user.department = .Commercial ∧
      contract.sales_contact_id ≠ current_user.id then
    .error .NotOwner
  else
    match apply_remaining_amount contract changes.remaining_amount with
    | .error f => .error f
    | .ok c1 =>
      match apply_total_amount current_user c1 changes.total_amount with
      | .error f => .error f
      | .ok c2 => apply_sales_contact employees current_user c2 changes.sales_contact_id

/-- `create_event` from `app/controllers/event_controller.py`: permission
gate, then contract existence, signature, sales-contact ownership and date
checks, in source order.  `new_id` models the database-assigned key. -/
def create_event (contracts : List Contract) (current_user : Employee)
    (contract_id : Nat) (name : String) (attendees : Int)
    (start_date end_date : Int) (location notes : String)
    (new_id : Nat) : Except Failure Event :=
  if ¬ check_permission current_user .create_event then
    .error .PermissionDenied
  else
    match contracts.find? (fun c => c.id == contract_id) with
    | none => .error .NotFound
    | some contract =>
      if ¬ contract.status_signed then .error .Unsigned
      else if contract.sales_contact_id ≠ current_user.id then .error .NotOwner
      else if start_date ≥ end_date then .error .Invalid
      else
        .ok { id := new_id
              contract_id := contract_id
              name := name
              attendees := attendees
              event_start := start_date
              event_end := end_date
              location := location
              notes := notes
              support_contact_id := none }

/-- The change set a caller may pass to `update_event` (its handled `kwargs`
keys; the general-fields loop accepts any existing `Event` attribute).
`support_contact_id = some none` models an explicit unassignment. -/
structure EventChanges where
  contract_id : Option Nat
  support_contact_id : Option (Option Nat)
  name : Option String
  attendees : Option Int
  event_start : Option Int
  event_end : Option Int
  location : Option String
  notes : Option String
deriving DecidableEq, Repr

/-- The `updates_made` flag of `update_event`: true when at least one of the
handled `kwargs` keys is present. -/
def EventChanges.updates_made (kw : EventChanges) : Bool :=
  kw.contract_id.isSome || kw.support_contact_id.isSome || kw.name.isSome ||
    kw.attendees.isSome || kw.event_start.isSome || kw.event_end.isSome ||
    kw.location.isSome || kw.notes.isSome

/-- The `contract_id` block of `update_event`: Gestion only, and the new
contract must exist and be signed. -/
def apply_event_contract (contracts : List Contract) (current_user : Employee)
    (event : Event) (v : Option Nat) : Except Failure Event :=
  match v with
  | none => .ok event
  | some new_contract_id =>
    if current_user.department ≠ .Gestion then .error .PermissionDenied
    else
      match contracts.find? (fun c => c.id == new_contract_id) with
      | none => .error .Invalid
      | some new_contract =>
        if ¬ new_contract.status_signed then .error .Invalid
        else .ok { event with contract_id := new_contract_id }

/-- The `support_contact_id` block of `update_event`: Support may only pass
their own id or `None`; otherwise only Gestion may change the field; a
non-null target must be a stored Support or Gestion employee. -/
def apply_event_support (employees : List Employee) (current_user : Employee)
    (event : Event) (v : Option (Option Nat)) : Except Failure Event :=
  match v with
  | none => .ok event
  | some new_support_id =>
    if current_user.department = .Support ∧
        new_support_id ≠ none ∧ new_support_id ≠ some current_user.id then
      .error .PermissionDenied
    else if current_user.department ≠ .Support ∧
        current_user.department ≠ .Gestion then
      .error .PermissionDenied
    else
      match new_support_id with
      | none => .ok { event with support_contact_id := none }
      | some sid =>
        match employees.find? (fun e =>
            e.id == sid &&
              (e.department == Dept.Support || e.department == Dept.Gestion)) with
        | none => .error .Invalid
        | some _ => .ok { event with support_contact_id := some sid }

/-- The general-fields loop of `update_event`: every remaining provided
attribute is assigned unconditionally. -/
def apply_event_fields (event : Event) (kw : EventChanges) : Event :=
  { event with
    name := kw.name.getD event.name
    attendees := kw.attendees.getD event.attendees
    event_start := kw.event_start.getD event.event_start
    event_end := kw.event_end.getD event.event_end
    location := kw.location.getD event.location
    notes := kw.notes.getD event.notes }

/-- `update_event` from `app/controllers/event_controller.py`: the
Commercial ban and the Support assigned-to-me gate, then the `contract_id`
and `support_contact_id` blocks, the general-fields loop, and the final date
validation when any update was made; any raised error aborts the whole
update (`session.rollback`). -/
def update_event (contracts : List Contract) (employees : List Employee)
    (current_user : Employee) (event : Event) (kw : EventChanges) :
    Except Failure Event :=
  if current_user.department = .Commercial then
    .error .PermissionDenied
  else if current_user.department = .Support ∧
      event.support_contact_id ≠ some current_user.id then
    .error .NotOwner
  else
    match apply_event_contract contracts current_user event kw.contract_id with
    | .error f => .error f
    | .ok e1 =>
      match apply_event_support employees current_user e1 kw.support_contact_id with
      | .error f => .error f
      | .ok e2 =>
        if kw.updates_made ∧ (apply_event_fields e2 kw).event_start ≥
            (apply_event_fields e2 kw).event_end then
          .error .Invalid
        else
          .ok (apply_event_fields e2 kw)

/-! ## Theorems about the claims -/

/-- Claim C1, counterexample: a Commercial (Sales) actor with id 1, listing
clients with no filter, receives the full client table — including a client
whose `sales_contact_id` is 2 ≠ 1.  The claim that the client-listing
operation returns only clients owned by the Sales actor is therefore false. -/
theorem sales_list_clients_returns_other_owners_client :
    list_clients [⟨1, ("C"), ("c"), ("p"), ("Co"), 2⟩] ⟨1, .Commercial⟩ none =
      .ok [⟨1, ("C"), ("c"), ("p"), ("Co"), 2⟩] ∧ (2 : Nat) ≠ 1 :=
  ⟨by rfl, by decide⟩

/-- Claim C1 (amended): `list_clients` applies the requested
`filter_by_sales_id` verbatim for every role and applies no filter when none
is requested; a Sales actor's view is not narrowed to their own clients. -/
theorem list_clients_applies_requested_filter
    (db : List Client) (current_user : Employee) :
    list_clients db current_user none = .ok db ∧
    ∀ fid : Nat, list_clients db current_user (some fid) =
      .ok (db.filter (fun c => c.sales_contact_id == fid)) := by
  obtain ⟨i, d⟩ := current_user
  cases d <;> simp [list_clients, check_permission, PERMISSIONS]

/-- Claim C2, counterexample: a verified credential whose embedded role
claim is Commercial, whose subject id 1 matches a stored employee whose
current role is Support, resolves to that employee instead of failing; no
role-drift comparison happens. -/
theorem role_drift_returns_actor :
    get_employee_from_token (some ⟨1, ("e"), .Commercial⟩) [⟨1, .Support⟩] =
      some ⟨1, .Support⟩ ∧ Dept.Commercial ≠ Dept.Support :=
  ⟨by rfl, by decide⟩

/-- Claim C2 (amended): for every verified credential whose subject id
matches a stored employee, session resolution succeeds and returns the
stored record (which carries the live role); the embedded role claim is
never compared, so no role-drift failure exists. -/
theorem resolve_ignores_role_claim
    (payload : TokenPayload) (employees : List Employee) (employee : Employee)
    (hfind : employees.find? (fun e => e.id == payload.sub) = some employee) :
    get_employee_from_token (some payload) employees = some employee := by
  simp [get_employee_from_token, hfind]

/-- Claim C2 witness: `resolve_ignores_role_claim` applied to the stored
employee ⟨1, Support⟩ and a token carrying the drifted Commercial claim. -/
theorem resolve_ignores_role_claim_witness :
    get_employee_from_token (some ⟨1, ("e"), .Commercial⟩) [⟨1, .Support⟩] =
      some ⟨1, .Support⟩ :=
  resolve_ignores_role_claim ⟨1, ("e"), .Commercial⟩ [⟨1, .Support⟩]
    ⟨1, .Support⟩ (by rfl)

/-- Claim C3, evaluation at the failing input: the owning Sales actor
updates only `remaining_amount` (500 → 300) on a signed contract; the
update succeeds but `status_signed` is re-derived as `300 == 0` and flips
from `true` to `false`, contradicting the claim that signing is decoupled
from the remaining amount. -/
theorem update_remaining_rederives_signed_flag :
    update_contract [] ⟨1, .Commercial⟩ ⟨5, 1, 1, 1000, 500, true⟩
        ⟨some 300, none, none⟩ =
      .ok ⟨5, 1, 1, 1000, 300, false⟩ := by rfl

/-- Claim C4, evaluation at the failing input: the owning Sales actor
(id 1) raises `remaining_amount` from 500 to 600; `update_contract` accepts
the increase instead of rejecting it. -/
theorem sales_increase_remaining_accepted :
    update_contract [] ⟨1, .Commercial⟩ ⟨5, 1, 1, 1000, 500, false⟩
        ⟨some 600, none, none⟩ =
      .ok ⟨5, 1, 1, 1000, 600, false⟩ := by rfl

/-- Claim C5, evaluation at the failing input: a Support actor (id 1)
attempts to self-assign an event whose `support_contact_id` is null; the
assigned-to-me gate fires first (`None ≠ 1`) and the request is rejected,
so the Unassigned → Assigned(self) transition is unreachable for Support. -/
theorem support_self_assign_unassigned_rejected :
    update_event [] [⟨1, .Support⟩] ⟨1, .Support⟩
        ⟨3, 1, ("E"), 10, 0, 1, ("L"), ("N"), none⟩
        ⟨none, some (some 1), none, none, none, none, none, none⟩ =
      .error .NotOwner := by rfl

/-- Claim C6, evaluation at the failing input: the Sales actor (id 1) who
owns the signed parent contract, with valid dates, is denied event creation
outright, because the `PERMISSIONS` table maps Commercial `create_event`
to `False`. -/
theorem owning_sales_create_event_denied :
    create_event [⟨1, 1, 1, 1000, 0, true⟩] ⟨1, .Commercial⟩ 1
        ("E") 10 0 1 ("L") ("N") 9 =
      .error .PermissionDenied := by rfl

/-- Claim C7: for every actor and every change request, when the contract
the request targets is stored unsigned, `create_event` fails and no event
is produced. -/
theorem create_event_rejects_unsigned_contract
    (contracts : List Contract) (current_user : Employee) (contract_id : Nat)
    (name : String) (attendees : Int) (start_date end_date : Int)
    (location notes : String) (new_id : Nat) (contract : Contract)
    (hfind : contracts.find? (fun c => c.id == contract_id) = some contract)
    (hunsigned : contract.status_signed = false) :
    succeeded (create_event contracts current_user contract_id name attendees
      start_date end_date location notes new_id) = false := by
  unfold create_event
  cases hp : check_permission current_user .create_event with
  | false => simp [hp, succeeded]
  | true => simp [hp, hfind, hunsigned, succeeded]

/-- Claim C7 witness: a Gestion actor targeting the unsigned contract 1. -/
theorem create_event_rejects_unsigned_contract_witness :
    succeeded (create_event [⟨1, 1, 1, 1000, 500, false⟩] ⟨1, .Gestion⟩ 1
      ("E") 10 0 1 ("L") ("N") 9) = false :=
  create_event_rejects_unsigned_contract _ _ _ _ _ _ _ _ _ _ _ (by rfl) (by rfl)

/-- The `remaining_amount` block keeps `0 ≤ remaining ≤ total`. -/
theorem apply_remaining_amount_inv (contract c' : Contract) (v : Option ℚ)
    (hinv : 0 ≤ contract.remaining_amount ∧
      contract.remaining_amount ≤ contract.total_amount)
    (h : apply_remaining_amount contract v = .ok c') :
    0 ≤ c'.remaining_amount ∧ c'.remaining_amount ≤ c'.total_amount := by
  unfold apply_remaining_amount at h
  split at h
  · injection h with h'
    subst h'
    exact hinv
  · split at h
    · exact Except.noConfusion h
    next hcond =>
      push_neg at hcond
      injection h with h'
      subst h'
      simpa using hcond

/-- The `total_amount` block keeps `0 ≤ remaining ≤ total`. -/
theorem apply_total_amount_inv (u : Employee) (contract c' : Contract)
    (v : Option ℚ)
    (hinv : 0 ≤ contract.remaining_amount ∧
      contract.remaining_amount ≤ contract.total_amount)
    (h : apply_total_amount u contract v = .ok c') :
    0 ≤ c'.remaining_amount ∧ c'.remaining_amount ≤ c'.total_amount := by
  unfold apply_total_amount at h
  split at h
  · injection h with h'
    subst h'
    exact hinv
  · split at h
    · exact Except.noConfusion h
    · split at h
      · exact Except.noConfusion h
      · split at h
        · exact Except.noConfusion h
        next hge =>
          push_neg at hge
          injection h with h'
          subst h'
          exact ⟨by simpa using hinv.1, by simpa using hge⟩

/-- The `sales_contact_id` block leaves both amounts unchanged. -/
theorem apply_sales_contact_inv (employees : List Employee) (u : Employee)
    (contract c' : Contract) (v : Option Nat)
    (hinv : 0 ≤ contract.remaining_amount ∧
      contract.remaining_amount ≤ contract.total_amount)
    (h : apply_sales_contact employees u contract v = .ok c') :
    0 ≤ c'.remaining_amount ∧ c'.remaining_amount ≤ c'.total_amount := by
  unfold apply_sales_contact at h
  split at h
  · injection h with h'
    subst h'
    exact hinv
  · split at h
    · exact Except.noConfusion h
    · split at h
      · exact Except.noConfusion h
      · split at h
        · exact Except.noConfusion h
        · injection h with h'
          subst h'
          exact ⟨by simpa using hinv.1, by simpa using hinv.2⟩

/-- Claim C8: every contract produced by a successful `create_contract`,
and every contract produced by a successful `update_contract` from a state
satisfying the invariant, satisfies `0 ≤ remaining_amount ≤ total_amount`,
for every role: the remaining amount is validated against the total, and a
new total is validated against the (possibly just updated) remaining. -/
theorem contract_amounts_invariant :
    (∀ (clients : List Client) (current_user : Employee) (client_id : Nat)
        (total_amount remaining_amount : ℚ) (new_id : Nat) (c : Contract),
        create_contract clients current_user client_id total_amount
          remaining_amount new_id = .ok c →
        0 ≤ c.remaining_amount ∧ c.remaining_amount ≤ c.total_amount) ∧
    (∀ (employees : List Employee) (current_user : Employee)
        (contract c' : Contract) (changes : ContractChanges),
        0 ≤ contract.remaining_amount →
        contract.remaining_amount ≤ contract.total_amount →
        update_contract employees current_user contract changes = .ok c' →
        0 ≤ c'.remaining_amount ∧ c'.remaining_amount ≤ c'.total_amount) := by
  constructor
  · intro clients u cid t r nid c h
    unfold create_contract at h
    split at h
    · exact Except.noConfusion h
    split at h
    · exact Except.noConfusion h
    next hcond =>
      push_neg at hcond
      split at h
      · exact Except.noConfusion h
      · injection h with h'
        subst h'
        exact ⟨by simpa using hcond.2.1, by simpa using hcond.2.2⟩
  · intro employees u contract c' changes h0 h1 h
    unfold update_contract at h
    split at h
    · exact Except.noConfusion h
    split at h
    · exact Except.noConfusion h
    split at h
    · exact Except.noConfusion h
    next c1 heq1 =>
      split at h
      · exact Except.noConfusion h
      next c2 heq2 =>
        exact apply_sales_contact_inv employees u c2 c' changes.sales_contact_id
          (apply_total_amount_inv u c1 c2 changes.total_amount
            (apply_remaining_amount_inv contract c1 changes.remaining_amount
              ⟨h0, h1⟩ heq1) heq2) h

/-- Claim C8 witness: a Gestion creation (total 1000, remaining 400) and a
Sales-owner payment update (500 → 200). -/
theorem contract_amounts_invariant_witness :
    (0 ≤ (Contract.mk 7 1 2 1000 400 false).remaining_amount ∧
      (Contract.mk 7 1 2 1000 400 false).remaining_amount ≤
        (Contract.mk 7 1 2 1000 400 false).total_amount) ∧
    (0 ≤ (Contract.mk 5 1 1 1000 200 false).remaining_amount ∧
      (Contract.mk 5 1 1 1000 200 false).remaining_amount ≤
        (Contract.mk 5 1 1 1000 200 false).total_amount) :=
  ⟨contract_amounts_invariant.1 [⟨1, ("C"), ("c"), ("p"), ("Co"), 2⟩]
      ⟨1, .Gestion⟩ 1 1000 400 7 _ (by rfl),
    contract_amounts_invariant.2 [] ⟨1, .Commercial⟩ ⟨5, 1, 1, 1000, 500, false⟩
      ⟨5, 1, 1, 1000, 200, false⟩ ⟨some 200, none, none⟩
      (by norm_num) (by norm_num) (by rfl)⟩

/-- Claim C9, counterexample: the assigned Support actor edits `attendees`
to −5; `update_event` accepts the edit and the resulting event carries a
negative attendee count — the `attendees ≥ 0` constraint is not enforced. -/
theorem negative_attendees_accepted :
    update_event [] [] ⟨1, .Support⟩
        ⟨3, 1, ("E"), 100, 0, 5, ("L"), ("N"), some 1⟩
        ⟨none, none, none, some (-5), none, none, none, none⟩ =
      .ok ⟨3, 1, ("E"), -5, 0, 5, ("L"), ("N"), some 1⟩ ∧ (-5 : Int) < 0 :=
  ⟨by rfl, by decide⟩

/-- Claim C9 (amended): every successful event mutation — an `update_event`
whose change set is non-empty, or a `create_event` — yields an event with
`event_start < event_end`, for every actor; the attendee count, however, is
not validated. -/
theorem event_dates_validated :
    (∀ (contracts : List Contract) (employees : List Employee)
        (current_user : Employee) (event updated : Event) (kw : EventChanges),
        kw.updates_made = true →
        update_event contracts employees current_user event kw = .ok updated →
        updated.event_start < updated.event_end) ∧
    (∀ (contracts : List Contract) (current_user : Employee) (contract_id : Nat)
        (name : String) (attendees : Int) (start_date end_date : Int)
        (location notes : String) (new_id : Nat) (ev : Event),
        create_event contracts current_user contract_id name attendees
          start_date end_date location notes new_id = .ok ev →
        ev.event_start < ev.event_end) := by
  constructor
  · intro contracts employees u event updated kw hmade h
    unfold update_event at h
    split at h
    · exact Except.noConfusion h
    split at h
    · exact Except.noConfusion h
    split at h
    · exact Except.noConfusion h
    split at h
    · exact Except.noConfusion h
    split at h
    · exact Except.noConfusion h
    next hcond =>
      push_neg at hcond
      injection h with h'
      subst h'
      exact hcond hmade
  · intro contracts u cid nm att s e loc nts nid ev h
    unfold create_event at h
    split at h
    · exact Except.noConfusion h
    split at h
    · exact Except.noConfusion h
    split at h
    · exact Except.noConfusion h
    split at h
    · exact Except.noConfusion h
    split at h
    · exact Except.noConfusion h
    next hcond =>
      injection h with h'
      subst h'
      simpa using not_le.mp hcond

/-- Claim C9 witness: the assigned Support actor renames their event. -/
theorem event_dates_validated_witness :
    (Event.mk 3 1 ("F") 10 0 5 ("L") ("N") (some 1)).event_start <
      (Event.mk 3 1 ("F") 10 0 5 ("L") ("N") (some 1)).event_end :=
  event_dates_validated.1 [] [] ⟨1, .Support⟩
    ⟨3, 1, ("E"), 10, 0, 5, ("L"), ("N"), some 1⟩
    ⟨3, 1, ("F"), 10, 0, 5, ("L"), ("N"), some 1⟩
    ⟨none, none, some ("F"), none, none, none, none, none⟩ (by rfl) (by rfl)

/-- Claim C10: every contract produced by a successful `create_contract`
has `status_signed` set exactly when the supplied remaining amount equals
the supplied total amount. -/
theorem create_contract_signed_iff_fully_unpaid
    (clients : List Client) (current_user : Employee) (client_id : Nat)
    (total_amount remaining_amount : ℚ) (new_id : Nat) (c : Contract)
    (h : create_contract clients current_user client_id total_amount
      remaining_amount new_id = .ok c) :
    c.status_signed = true ↔ c.remaining_amount = c.total_amount := by
  unfold create_contract at h
  split at h
  · exact Except.noConfusion h
  split at h
  · exact Except.noConfusion h
  split at h
  · exact Except.noConfusion h
  · injection h with h'
    subst h'
    simp

/-- Claim C10 witness: creating a fully unpaid contract (remaining = total
= 1000) yields a signed contract. -/
theorem create_contract_signed_iff_fully_unpaid_witness :
    (Contract.mk 7 1 2 1000 1000 true).status_signed = true ↔
      (Contract.mk 7 1 2 1000 1000 true).remaining_amount =
        (Contract.mk 7 1 2 1000 1000 true).total_amount :=
  create_contract_signed_iff_fully_unpaid [⟨1, ("C"), ("c"), ("p"), ("Co"), 2⟩]
    ⟨1, .Gestion⟩ 1 1000 1000 7 _ (by rfl)

end EpicEvents
